import Mathlib

/- Shallow embedding of `drivers/trng/eip76_sp80090.c` (EIP-76 SP 800-90
post-processor protocol driver).

Register reads are passed to each operation as explicit oracle values (one
parameter per read, in source order); register writes are collected in a
trace.  Caller-supplied pointers that the source checks with
`EIP76_CHECK_POINTER` are modelled as `Option` buffers / `Bool` null flags;
a dereference through a pointer the source does not check is modelled as an
`Option.none` result (undefined behaviour).  The source is compiled with
`EIP76_POST_PROCESSOR_TYPE == EIP76_POST_PROCESSOR_BC_DF`, so the BC_DF
branches of the `#if` directives are the ones embedded. -/

/-- Modelled from the spec: the driver status codes (§7); `eip76_types.h` is
not part of the sources. -/
inductive EIP76_Status where
  | NO_ERROR
  | INVALID_PARAMETER
  | ILLEGAL_IN_STATE
  | BUSY_RETRY_LATER
  | PROCESSING
deriving DecidableEq

/-- Modelled from the spec: the protocol states (§4.3); `eip76_fsm.h` is not
part of the sources.  The names follow the constants used in the source. -/
inductive EIP76_State where
  | RANDOM_GENERATING
  | SP80090_RESEED_START
  | SP80090_RESEED_READY
  | SP80090_RESEED_WRITING
  | KAT_START
  | KAT_SP80090_PROCESSING
  | KAT_SP80090_BCDF_RESEEDED
  | KAT_SP80090_BCDF_NOISE
  | KAT_SP80090_BCDF_READY
  | KAT_SP80090_BCDF_PROCESSING
deriving DecidableEq

/-- Modelled from the spec: status-register bit for an immediately available
128-bit output block (`EIP76_STATUS_READY`, consulted by
`EIP76_STATUS_IS_READY` and by the available-block computation). -/
def EIP76_STATUS_READY : Nat := 1

/-- Modelled from the spec: the "test-ready" status bit. -/
def EIP76_STATUS_TEST_READY : Nat := 256

/-- Modelled from the spec: the "reseed additional-input ready" status bit. -/
def EIP76_STATUS_RESEED_AI : Nat := 1024

/-- Modelled from the spec: the opaque event bitmask extracted from the status
register and returned to the caller (never interpreted by the core). -/
def EIP76_EVENTS_MASK : Nat := 254

/-- Modelled from the spec: the reseed-enable control bit (the source also
polls this bit as the raw constant `0x00008000`). -/
def EIP76_CONTROL_ENABLE_RESEED : Nat := 32768

/-- Modelled from the spec: the request-data control bit (bit 16; the 12-bit
block-count field occupies bits 20..31 above it). -/
def EIP76_REQUEST_DATA : Nat := 65536

/-- Modelled from the spec: the hardware maximum for the number of 128-bit
blocks a single control write may request (12-bit field). -/
def EIP76_REQUEST_DATA_MAX_BLK_COUNT : Nat := 4095

/-- Modelled from the spec: hardware-declared minimum PS/AI word count. -/
def EIP76_MIN_PS_AI_WORD_COUNT : Nat := 1

/-- Modelled from the spec: hardware-declared maximum PS/AI word count
(12 PS/AI register slots). -/
def EIP76_MAX_PS_AI_WORD_COUNT : Nat := 12

/-- Modelled from the spec: test-register bit enabling the post-processor
known-answer test. -/
def EIP76_TEST_POST_PROC : Nat := 32

/-- Modelled from the spec: test-register bit enabling the SP 800-90 test. -/
def EIP76_TEST_SP_800_90 : Nat := 64

/-- Modelled from the spec: test-register bit enabling the known-noise test. -/
def EIP76_TEST_KNOWN_NOISE : Nat := 128

/-- Union of the three active-test bits cleared when leaving test mode. -/
def EIP76_TESTS_MASK : Nat :=
  EIP76_TEST_POST_PROC ||| EIP76_TEST_SP_800_90 ||| EIP76_TEST_KNOWN_NOISE

/-- Modelled from the spec: interrupt-acknowledge value clearing the
ready bit after a block has been read. -/
def CLEAR_READY_BIT : Nat := 1

def MASK_1_BIT : Nat := 1

def MASK_8_BITS : Nat := 255

def MASK_12_BITS : Nat := 4095

def MASK_31_BITS : Nat := 2147483647

/-- Device registers written by this module (named by their source macros). -/
inductive Reg where
  | CONTROL
  | TEST
  | INTACK
  | MAINSHIFTREG_L
  | MAINSHIFTREG_H
  | PS_AI (i : Nat)
  | KEY (i : Nat)
  | INPUT_REG (i : Nat)
deriving DecidableEq

/-- The context (`EIP76_True_IOArea_t`): protocol state, saved control
snapshot, loop index and two-pass flag.  The opaque device handle is dropped;
register traffic is modelled by oracles and the write trace instead. -/
structure EIP76_True_IOArea where
  State : EIP76_State
  SavedControl : Nat
  Index : Nat
  Flag : Bool
deriving DecidableEq

/-- Result of one operation call: returned status, final context, the last
value stored through `Events_p` (`none` when never stored), the trace of
device register writes, and the (offset, value) stores into the caller's
output buffer. -/
structure OpResult where
  ret : EIP76_Status
  ctx : EIP76_True_IOArea
  events : Option Nat
  writes : List (Reg × Nat)
  dataOut : List (Nat × Nat)
deriving DecidableEq

/-- Result of a failed `EIP76_CHECK_POINTER` / `EIP76_CHECK_INT_INRANGE` /
`EIP76_CHECK_INT_ATMOST`: `EIP76_INVALID_PARAMETER` is returned before any
register access or context mutation.  Modelled from the spec: the validation
helper macros are not part of the sources (§4.4: "pointer non-null, word
counts within the hardware-declared min/max, default failure
`InvalidParameter`"). -/
def invalidParam (ctx : EIP76_True_IOArea) : OpResult :=
  ⟨EIP76_Status.INVALID_PARAMETER, ctx, none, [], []⟩

/-- Modelled from the spec (§4.3): `EIP76_State_Set` unconditionally
overwrites the state and returns success. -/
def EIP76_State_Set (NewState : EIP76_State) : EIP76_Status × EIP76_State :=
  (EIP76_Status.NO_ERROR, NewState)

/-- Modelled from the spec: `EIP76_STATUS_IS_READY` tests the available-block
status bit. -/
def EIP76_STATUS_IS_READY (RegVal : Nat) : Prop :=
  (RegVal &&& EIP76_STATUS_READY) ≠ 0

instance (RegVal : Nat) : Decidable (EIP76_STATUS_IS_READY RegVal) := by
  unfold EIP76_STATUS_IS_READY
  infer_instance

/-- `EIP76_Internal_PostProcessor_PS_AI_Write`: write the first
`PS_AI_WordCount` buffer words to consecutive PS/AI register slots. -/
def EIP76_Internal_PostProcessor_PS_AI_Write
    (PS_AI_Data : List Nat) (PS_AI_WordCount : Nat) : List (Reg × Nat) :=
  (List.range PS_AI_WordCount).map (fun i => (Reg.PS_AI i, PS_AI_Data.getD i 0))

/-- `EIP76Lib_PS_AI_Write`: read status, store events, require test-ready or
reseed-AI-ready, write the PS/AI words, zero-fill slot 11 when fewer than the
maximum count was supplied.  Returns (status code, stored events value, PS/AI
register writes). -/
def EIP76Lib_PS_AI_Write
    (PS_AI_Data : List Nat) (PS_AI_WordCount : Nat) (statusRead : Nat) :
    EIP76_Status × Nat × List (Reg × Nat) :=
  let events := statusRead &&& EIP76_EVENTS_MASK
  if (statusRead &&& EIP76_STATUS_TEST_READY) = 0 ∧
     (statusRead &&& EIP76_STATUS_RESEED_AI) = 0 then
    (EIP76_Status.ILLEGAL_IN_STATE, events, [])
  else
    let ws := EIP76_Internal_PostProcessor_PS_AI_Write PS_AI_Data PS_AI_WordCount
    let ws := if PS_AI_WordCount < EIP76_MAX_PS_AI_WORD_COUNT then
                ws ++ [(Reg.PS_AI 11, 0)]
              else ws
    (EIP76_Status.NO_ERROR, events, ws)

/-- `EIP76_PostProcessor_IsBusy`: poll the reseed-enable control bit; when it
has cleared, advance to `RANDOM_GENERATING`, otherwise report busy without
touching the context. -/
def EIP76_PostProcessor_IsBusy
    (ioNull eventsNull : Bool) (ctx : EIP76_True_IOArea)
    (statusRead controlRead : Nat) : OpResult :=
  if ioNull then invalidParam ctx
  else if eventsNull then invalidParam ctx
  else
    let events := statusRead &&& EIP76_EVENTS_MASK
    if (controlRead &&& EIP76_CONTROL_ENABLE_RESEED) = 0 then
      let (rv, st) := EIP76_State_Set EIP76_State.RANDOM_GENERATING
      ⟨rv, { ctx with State := st }, some events, [], []⟩
    else
      ⟨EIP76_Status.BUSY_RETRY_LATER, ctx, some events, [], []⟩

/-- `EIP76_PostProcessor_Reseed_Start`: enter `SP80090_RESEED_START`, read
status for event capture, issue the debug control write through the null
device handle and the reseed-enable control write, busy-wait on status (the
wait loop performs reads only and terminates by hardware assumption), then
enter `SP80090_RESEED_READY`. -/
def EIP76_PostProcessor_Reseed_Start
    (ioNull eventsNull : Bool) (ctx : EIP76_True_IOArea)
    (statusRead : Nat) : OpResult :=
  if ioNull then invalidParam ctx
  else if eventsNull then invalidParam ctx
  else
    let (_, st1) := EIP76_State_Set EIP76_State.SP80090_RESEED_START
    let ctx1 := { ctx with State := st1 }
    let events := statusRead &&& EIP76_EVENTS_MASK
    let ws := [(Reg.CONTROL, 65536), (Reg.CONTROL, EIP76_CONTROL_ENABLE_RESEED)]
    let (rv, st2) := EIP76_State_Set EIP76_State.SP80090_RESEED_READY
    ⟨rv, { ctx1 with State := st2 }, some events, ws, []⟩

/-- `EIP76_PostProcessor_Reseed_Write`: validate, delegate to
`EIP76Lib_PS_AI_Write`, busy-wait on the write-complete control bit (reads
only), then enter `SP80090_RESEED_WRITING`. -/
def EIP76_PostProcessor_Reseed_Write
    (ioNull eventsNull : Bool) (ctx : EIP76_True_IOArea)
    (PS_AI_Data : Option (List Nat)) (PS_AI_WordCount : Nat)
    (statusRead : Nat) : OpResult :=
  if ioNull then invalidParam ctx
  else
    match PS_AI_Data with
    | none => invalidParam ctx
    | some d =>
      if PS_AI_WordCount < EIP76_MIN_PS_AI_WORD_COUNT ∨
         PS_AI_WordCount > EIP76_MAX_PS_AI_WORD_COUNT then invalidParam ctx
      else if eventsNull then invalidParam ctx
      else
        let (rv, events, ws) := EIP76Lib_PS_AI_Write d PS_AI_WordCount statusRead
        if rv ≠ EIP76_Status.NO_ERROR then
          ⟨rv, ctx, some events, ws, []⟩
        else
          let (_, st) := EIP76_State_Set EIP76_State.SP80090_RESEED_WRITING
          ⟨EIP76_Status.NO_ERROR, { ctx with State := st }, some events, ws, []⟩

/-- `EIP76_PostProcessor_NIST_Write`: validate, for nonzero vector types drain
the four output registers (reads, discarded), delegate to
`EIP76Lib_PS_AI_Write`, then enter `KAT_SP80090_PROCESSING`. -/
def EIP76_PostProcessor_NIST_Write
    (ioNull eventsNull : Bool) (ctx : EIP76_True_IOArea)
    (PS_AI_Data : Option (List Nat)) (PS_AI_WordCount VectorType : Nat)
    (statusRead : Nat) : OpResult :=
  if ioNull then invalidParam ctx
  else
    match PS_AI_Data with
    | none => invalidParam ctx
    | some d =>
      if PS_AI_WordCount < EIP76_MIN_PS_AI_WORD_COUNT ∨
         PS_AI_WordCount > EIP76_MAX_PS_AI_WORD_COUNT then invalidParam ctx
      else if eventsNull then invalidParam ctx
      else
        let (rv, events, ws) := EIP76Lib_PS_AI_Write d PS_AI_WordCount statusRead
        if rv ≠ EIP76_Status.NO_ERROR then
          ⟨rv, ctx, some events, ws, []⟩
        else
          let (rv2, st) := EIP76_State_Set EIP76_State.KAT_SP80090_PROCESSING
          ⟨rv2, { ctx with State := st }, some events, ws, []⟩

/-- `EIP76_PostProcessor_PS_AI_Write`: validate, read status and store events,
then write the PS/AI words unconditionally (no readiness check in the
source), zero-fill slot 11 when short, and enter `RANDOM_GENERATING`. -/
def EIP76_PostProcessor_PS_AI_Write
    (ioNull eventsNull : Bool) (ctx : EIP76_True_IOArea)
    (PS_AI_Data : Option (List Nat)) (PS_AI_WordCount : Nat)
    (statusRead : Nat) : OpResult :=
  if ioNull then invalidParam ctx
  else
    match PS_AI_Data with
    | none => invalidParam ctx
    | some d =>
      if PS_AI_WordCount < EIP76_MIN_PS_AI_WORD_COUNT ∨
         PS_AI_WordCount > EIP76_MAX_PS_AI_WORD_COUNT then invalidParam ctx
      else if eventsNull then invalidParam ctx
      else
        let events := statusRead &&& EIP76_EVENTS_MASK
        let ws := EIP76_Internal_PostProcessor_PS_AI_Write d PS_AI_WordCount
        let ws := if PS_AI_WordCount < EIP76_MAX_PS_AI_WORD_COUNT then
                    ws ++ [(Reg.PS_AI 11, 0)]
                  else ws
        let (rv, st) := EIP76_State_Set EIP76_State.RANDOM_GENERATING
        ⟨rv, { ctx with State := st }, some events, ws, []⟩

/-- `EIP76_PostProcessor_Key_Write`: validate, then write the 8-word key
block; no state transition. -/
def EIP76_PostProcessor_Key_Write
    (ioNull : Bool) (ctx : EIP76_True_IOArea)
    (Key_Data : Option (List Nat)) : OpResult :=
  if ioNull then invalidParam ctx
  else
    match Key_Data with
    | none => invalidParam ctx
    | some k =>
      ⟨EIP76_Status.NO_ERROR, ctx, none,
       (List.range 8).map (fun i => (Reg.KEY i, k.getD i 0)), []⟩

/-- `EIP76_PostProcessor_Input_Write`: validate, read status and store
events, write the four raw-test input registers in order, then enter
`KAT_SP80090_PROCESSING`. -/
def EIP76_PostProcessor_Input_Write
    (ioNull eventsNull : Bool) (ctx : EIP76_True_IOArea)
    (Input_Data : Option (List Nat)) (statusRead : Nat) : OpResult :=
  if ioNull then invalidParam ctx
  else if eventsNull then invalidParam ctx
  else
    match Input_Data with
    | none => invalidParam ctx
    | some d =>
      let events := statusRead &&& EIP76_EVENTS_MASK
      let ws := [(Reg.INPUT_REG 0, d.getD 0 0), (Reg.INPUT_REG 1, d.getD 1 0),
                 (Reg.INPUT_REG 2, d.getD 2 0), (Reg.INPUT_REG 3, d.getD 3 0)]
      let (rv, st) := EIP76_State_Set EIP76_State.KAT_SP80090_PROCESSING
      ⟨rv, { ctx with State := st }, some events, ws, []⟩

/-- `EIP76_PostProcessor_Result_Read`: validate, read status and store
events, require test-ready, read the four output words, clear the active-test
bits in the test register, restore the saved control snapshot, then enter
`RANDOM_GENERATING`. -/
def EIP76_PostProcessor_Result_Read
    (ioNull eventsNull outputNull : Bool) (ctx : EIP76_True_IOArea)
    (statusRead out0 out1 out2 out3 testRead : Nat) : OpResult :=
  if ioNull then invalidParam ctx
  else if eventsNull then invalidParam ctx
  else if outputNull then invalidParam ctx
  else
    let events := statusRead &&& EIP76_EVENTS_MASK
    if (statusRead &&& EIP76_STATUS_TEST_READY) = 0 then
      ⟨EIP76_Status.ILLEGAL_IN_STATE, ctx, some events, [], []⟩
    else
      let dOut := [(0, out0), (1, out1), (2, out2), (3, out3)]
      let testw := testRead &&& (4294967295 ^^^ EIP76_TESTS_MASK)
      let ws := [(Reg.TEST, testw), (Reg.CONTROL, ctx.SavedControl)]
      let (rv, st) := EIP76_State_Set EIP76_State.RANDOM_GENERATING
      ⟨rv, { ctx with State := st }, some events, ws, dOut⟩

/-- `EIP76_PostProcessor_IsReady` (BC_DF build): when the reseed-AI bit is
set, advance to `SP80090_RESEED_READY`; otherwise report busy without
touching the context. -/
def EIP76_PostProcessor_IsReady
    (ioNull eventsNull : Bool) (ctx : EIP76_True_IOArea)
    (statusRead : Nat) : OpResult :=
  if ioNull then invalidParam ctx
  else if eventsNull then invalidParam ctx
  else
    let events := statusRead &&& EIP76_EVENTS_MASK
    if (statusRead &&& EIP76_STATUS_RESEED_AI) ≠ 0 then
      let (rv, st) := EIP76_State_Set EIP76_State.SP80090_RESEED_READY
      ⟨rv, { ctx with State := st }, some events, [], []⟩
    else
      ⟨EIP76_Status.BUSY_RETRY_LATER, ctx, some events, [], []⟩

/-- Bit-packing of the low shift-register half in
`EIP76_PostProcessor_BCDF_Noise_Write`: bits 1..31 of sample `a` shifted up
by one, with bit 31 of sample `b` in the low bit. -/
def bcdfPackLow (a b : Nat) : Nat :=
  ((a &&& 2147483647) <<< 1) ||| ((b >>> 31) &&& 1)

/-- Bit-packing of the high shift-register half in
`EIP76_PostProcessor_BCDF_Noise_Write`: the symmetric packing of `bcdfPackLow`. -/
def bcdfPackHigh (a b : Nat) : Nat :=
  ((b &&& 2147483647) <<< 1) ||| ((a >>> 31) &&& 1)

/-- `EIP76_PostProcessor_BCDF_PS_AI_Write`: validate (the word count must
equal the maximum exactly), read status and store events, write the PS/AI
words, reset `Index` to 0, then enter `KAT_SP80090_BCDF_RESEEDED`. -/
def EIP76_PostProcessor_BCDF_PS_AI_Write
    (ioNull eventsNull : Bool) (ctx : EIP76_True_IOArea)
    (PS_AI_Data : Option (List Nat)) (PS_AI_WordCount : Nat)
    (statusRead : Nat) : OpResult :=
  if ioNull then invalidParam ctx
  else
    match PS_AI_Data with
    | none => invalidParam ctx
    | some d =>
      if PS_AI_WordCount < EIP76_MAX_PS_AI_WORD_COUNT ∨
         PS_AI_WordCount > EIP76_MAX_PS_AI_WORD_COUNT then invalidParam ctx
      else if eventsNull then invalidParam ctx
      else
        let events := statusRead &&& EIP76_EVENTS_MASK
        let ws := EIP76_Internal_PostProcessor_PS_AI_Write d PS_AI_WordCount
        let (rv, st) := EIP76_State_Set EIP76_State.KAT_SP80090_BCDF_RESEEDED
        ⟨rv, { ctx with Index := 0, State := st }, some events, ws, []⟩

/-- `EIP76_PostProcessor_BCDF_Noise_Write`: bit-pack the noise sample pair at
`Index`/`Index+1` into the two shift-register halves, advance `Index` by 2
(wrapping to 0 once `Noise_Count` is reached), then enter
`KAT_SP80090_BCDF_NOISE`.  Only the context pointer is checked; a null
`Noise_Data` is dereferenced (undefined behaviour, modelled as `none`). -/
def EIP76_PostProcessor_BCDF_Noise_Write
    (ioNull : Bool) (ctx : EIP76_True_IOArea)
    (Noise_Data : Option (List Nat)) (Noise_Count : Nat) : Option OpResult :=
  if ioNull then some (invalidParam ctx)
  else
    match Noise_Data with
    | none => none
    | some nd =>
      let lo := bcdfPackLow (nd.getD ctx.Index 0) (nd.getD (ctx.Index + 1) 0)
      let hi := bcdfPackHigh (nd.getD ctx.Index 0) (nd.getD (ctx.Index + 1) 0)
      let idx1 := ctx.Index + 2
      let idx2 := if idx1 ≥ Noise_Count then 0 else idx1
      let (rv, st) := EIP76_State_Set EIP76_State.KAT_SP80090_BCDF_NOISE
      some ⟨rv, { ctx with Index := idx2, State := st }, none,
            [(Reg.MAINSHIFTREG_L, lo), (Reg.MAINSHIFTREG_H, hi)], []⟩

/-- `EIP76_PostProcessor_BCDF_Status_Get`: read status; when test-ready, a
nonzero `Index` means more noise blocks are pending (back to
`KAT_SP80090_BCDF_RESEEDED`, `PROCESSING`), a zero `Index` means the last
block was consumed (`KAT_SP80090_BCDF_READY`); when not ready, set
`KAT_SP80090_BCDF_NOISE` and report busy. -/
def EIP76_PostProcessor_BCDF_Status_Get
    (ioNull eventsNull : Bool) (ctx : EIP76_True_IOArea)
    (statusRead : Nat) : OpResult :=
  if ioNull then invalidParam ctx
  else if eventsNull then invalidParam ctx
  else
    let events := statusRead &&& EIP76_EVENTS_MASK
    if (statusRead &&& EIP76_STATUS_TEST_READY) ≠ 0 then
      if ctx.Index ≠ 0 then
        let (_, st) := EIP76_State_Set EIP76_State.KAT_SP80090_BCDF_RESEEDED
        ⟨EIP76_Status.PROCESSING, { ctx with State := st }, some events, [], []⟩
      else
        let (rv, st) := EIP76_State_Set EIP76_State.KAT_SP80090_BCDF_READY
        ⟨rv, { ctx with State := st }, some events, [], []⟩
    else
      let (_, st) := EIP76_State_Set EIP76_State.KAT_SP80090_BCDF_NOISE
      ⟨EIP76_Status.BUSY_RETRY_LATER, { ctx with State := st }, some events, [], []⟩

/-- `EIP76_PostProcessor_BCDF_Generate_Start`: when the 12-bit outstanding
block field of the control register is nonzero, report busy with no side
effects; otherwise compute the requested block count `ceil(WordCount/4)` and
the available block count from status, and when short issue one control
write requesting exactly the deficit (parameter failure when the deficit
exceeds the hardware maximum), then enter `KAT_SP80090_BCDF_PROCESSING`.
Only the context pointer is checked; a null `Events_p` is stored through on
the non-busy path (undefined behaviour, modelled as `none`). -/
def EIP76_PostProcessor_BCDF_Generate_Start
    (ioNull eventsNull : Bool) (ctx : EIP76_True_IOArea)
    (WordCount : Nat) (controlRead statusRead : Nat) : Option OpResult :=
  if ioNull then some (invalidParam ctx)
  else if ((controlRead >>> 20) &&& MASK_12_BITS) ≠ 0 then
    some ⟨EIP76_Status.BUSY_RETRY_LATER, ctx, none, [], []⟩
  else
    let reqBlkCnt := (WordCount + 3) / 4
    if eventsNull then none
    else
      let events := statusRead &&& EIP76_EVENTS_MASK
      let availBlkCnt := (statusRead &&& MASK_1_BIT) +
                         ((statusRead >>> 16) &&& MASK_8_BITS)
      if availBlkCnt < reqBlkCnt then
        if reqBlkCnt - availBlkCnt > EIP76_REQUEST_DATA_MAX_BLK_COUNT then
          some ⟨EIP76_Status.INVALID_PARAMETER, ctx, some events, [], []⟩
        else
          let writeValue := EIP76_REQUEST_DATA |||
                            (((reqBlkCnt - availBlkCnt) &&& MASK_12_BITS) <<< 20)
          let (rv, st) := EIP76_State_Set EIP76_State.KAT_SP80090_BCDF_PROCESSING
          some ⟨rv, { ctx with State := st }, some events,
                [(Reg.CONTROL, writeValue)], []⟩
      else
        let (rv, st) := EIP76_State_Set EIP76_State.KAT_SP80090_BCDF_PROCESSING
        some ⟨rv, { ctx with State := st }, some events, [], []⟩

/-- `EIP76_PostProcessor_BCDF_Result_Read`: validate (context, events, word
count at most the 31-bit cap; the output data pointer is not checked), read
status; when ready, read one 4-word block into the output buffer at `Index`,
advance `Index` by 4 and acknowledge the ready bit.  When `Index` reaches
`Data_WordCount`: reset `Index`, then if `Flag` is set leave test mode
(clear active tests, restore the saved control), clear `Flag` and finish in
`SP80090_RESEED_START` with success; if `Flag` is clear, enter `KAT_START`,
set `Flag`, re-issue the reseed-enable control write and return
`PROCESSING`.  Otherwise set `KAT_SP80090_BCDF_PROCESSING` and report
busy. -/
def EIP76_PostProcessor_BCDF_Result_Read
    (ioNull eventsNull dataNull : Bool) (ctx : EIP76_True_IOArea)
    (Data_WordCount : Nat)
    (statusRead out0 out1 out2 out3 testRead : Nat) : Option OpResult :=
  if ioNull then some (invalidParam ctx)
  else if eventsNull then some (invalidParam ctx)
  else if Data_WordCount > MASK_31_BITS then some (invalidParam ctx)
  else
    let events := statusRead &&& EIP76_EVENTS_MASK
    if EIP76_STATUS_IS_READY statusRead then
      if dataNull then none
      else
        let dOut := [(ctx.Index, out0), (ctx.Index + 1, out1),
                     (ctx.Index + 2, out2), (ctx.Index + 3, out3)]
        let idx := ctx.Index + 4
        if idx ≥ Data_WordCount then
          if ctx.Flag then
            let testw := testRead &&& (4294967295 ^^^ EIP76_TESTS_MASK)
            let (_, st1) := EIP76_State_Set EIP76_State.RANDOM_GENERATING
            let ctx1 := { ctx with Index := 0, Flag := false, State := st1 }
            let (rv, st2) := EIP76_State_Set EIP76_State.SP80090_RESEED_START
            some ⟨rv, { ctx1 with State := st2 }, some events,
                  [(Reg.INTACK, CLEAR_READY_BIT), (Reg.TEST, testw),
                   (Reg.CONTROL, ctx.SavedControl)], dOut⟩
          else
            let (_, st) := EIP76_State_Set EIP76_State.KAT_START
            some ⟨EIP76_Status.PROCESSING,
                  { ctx with Index := 0, Flag := true, State := st }, some events,
                  [(Reg.INTACK, CLEAR_READY_BIT),
                   (Reg.CONTROL, EIP76_CONTROL_ENABLE_RESEED)], dOut⟩
        else
          let (_, st) := EIP76_State_Set EIP76_State.KAT_SP80090_BCDF_PROCESSING
          some ⟨EIP76_Status.BUSY_RETRY_LATER,
                { ctx with Index := idx, State := st }, some events,
                [(Reg.INTACK, CLEAR_READY_BIT)], dOut⟩
    else
      let (_, st) := EIP76_State_Set EIP76_State.KAT_SP80090_BCDF_PROCESSING
      some ⟨EIP76_Status.BUSY_RETRY_LATER, { ctx with State := st },
            some events, [], []⟩

/-- `EIP76_PostProcessor_BlockCount_Get` (BC_DF build): validate both
pointers, then return the hardware block counter; no context effect. -/
def EIP76_PostProcessor_BlockCount_Get
    (ioNull blockCountNull : Bool) (blockCountRead : Nat) :
    EIP76_Status × Option Nat :=
  if ioNull then (EIP76_Status.INVALID_PARAMETER, none)
  else if blockCountNull then (EIP76_Status.INVALID_PARAMETER, none)
  else (EIP76_Status.NO_ERROR, some blockCountRead)

/-- A one-bit value packed below an even number: bitwise-or is addition. -/
theorem two_mul_lor_eq_add (a b : Nat) (hb : b < 2) : (2 * a) ||| b = 2 * a + b := by
  have h := Nat.mul_add_lt_is_or (i := 1) (b := b) (by simpa using hb) a
  simpa using h.symm

/-- Masking with the low-31-bit mask is reduction modulo `2^31`. -/
theorem and_mask31_eq_mod (a : Nat) : a &&& 2147483647 = a % 2147483648 := by
  have h := Nat.and_pow_two_sub_one_eq_mod a 31
  norm_num at h
  exact h

/-- Arithmetic characterisation of the low-half noise packing. -/
theorem bcdfPackLow_eq (a b : Nat) (hb : b < 4294967296) :
    bcdfPackLow a b = 2 * (a % 2147483648) + b / 2147483648 := by
  unfold bcdfPackLow
  rw [and_mask31_eq_mod, Nat.shiftLeft_eq]
  have hb31 : b >>> 31 = b / 2147483648 := by rw [Nat.shiftRight_eq_div_pow]
  rw [hb31, Nat.and_one_is_mod]
  have h1 : b / 2147483648 % 2 = b / 2147483648 := by omega
  rw [h1]
  have h2 : a % 2147483648 * 2 ^ 1 = 2 * (a % 2147483648) := by ring
  rw [h2]
  exact two_mul_lor_eq_add _ _ (by omega)

/-- Arithmetic characterisation of the high-half noise packing. -/
theorem bcdfPackHigh_eq (a b : Nat) (ha : a < 4294967296) :
    bcdfPackHigh a b = 2 * (b % 2147483648) + a / 2147483648 := by
  unfold bcdfPackHigh
  rw [and_mask31_eq_mod, Nat.shiftLeft_eq]
  have ha31 : a >>> 31 = a / 2147483648 := by rw [Nat.shiftRight_eq_div_pow]
  rw [ha31, Nat.and_one_is_mod]
  have h1 : a / 2147483648 % 2 = a / 2147483648 := by omega
  rw [h1]
  have h2 : b % 2147483648 * 2 ^ 1 = 2 * (b % 2147483648) := by ring
  rw [h2]
  exact two_mul_lor_eq_add _ _ (by omega)

/-- C6: the BCDF noise-write bit-packing is invertible.  For every pair of
32-bit samples (A, B), the low packed word yields bits 0..30 of A (shifted
down by one) and carries bit 31 of B in its low bit; the high packed word is
symmetric; and the original samples A and B are fully recovered from the two
packed words, each sample's top bit sitting in the low bit of the opposite
half. -/
theorem C6_bcdf_noise_packing_roundtrip (A B : Nat)
    (hA : A < 4294967296) (hB : B < 4294967296) :
    (bcdfPackLow A B) >>> 1 = A % 2147483648 ∧
    (bcdfPackHigh A B) &&& 1 = A / 2147483648 ∧
    (bcdfPackHigh A B) >>> 1 = B % 2147483648 ∧
    (bcdfPackLow A B) &&& 1 = B / 2147483648 ∧
    ((bcdfPackLow A B) >>> 1) + (((bcdfPackHigh A B) &&& 1) * 2147483648) = A ∧
    ((bcdfPackHigh A B) >>> 1) + (((bcdfPackLow A B) &&& 1) * 2147483648) = B := by
  rw [bcdfPackLow_eq A B hB, bcdfPackHigh_eq A B hA,
      Nat.shiftRight_eq_div_pow, Nat.shiftRight_eq_div_pow,
      Nat.and_one_is_mod, Nat.and_one_is_mod]
  simp only [pow_one]
  refine ⟨by omega, by omega, by omega, by omega, by omega, by omega⟩

/-- Witness for C6 at the concrete samples A = 2^31 + 5, B = 7. -/
theorem C6_bcdf_noise_packing_roundtrip_witness :
    (2147483653 : Nat) < 4294967296 ∧ (7 : Nat) < 4294967296 ∧
    ((bcdfPackLow 2147483653 7) >>> 1 = 2147483653 % 2147483648 ∧
     (bcdfPackHigh 2147483653 7) &&& 1 = 2147483653 / 2147483648 ∧
     (bcdfPackHigh 2147483653 7) >>> 1 = 7 % 2147483648 ∧
     (bcdfPackLow 2147483653 7) &&& 1 = 7 / 2147483648 ∧
     ((bcdfPackLow 2147483653 7) >>> 1) +
       (((bcdfPackHigh 2147483653 7) &&& 1) * 2147483648) = 2147483653 ∧
     ((bcdfPackHigh 2147483653 7) >>> 1) +
       (((bcdfPackLow 2147483653 7) &&& 1) * 2147483648) = 7) :=
  ⟨by norm_num, by norm_num,
   C6_bcdf_noise_packing_roundtrip 2147483653 7 (by norm_num) (by norm_num)⟩

/-- C1: two-pass KAT protocol.  From a context in `KAT_START` with the
two-pass flag clear, the first full completion of
`EIP76_PostProcessor_BCDF_Result_Read` (the block index reaching the
requested word count) ends in `KAT_START` with the flag set, re-issues the
reseed-enable control write and returns `PROCESSING`; the second full
completion restores the saved control snapshot, clears the flag, ends in
`SP80090_RESEED_START` and returns success — so after exactly two full
completions the context is in `SP80090_RESEED_START` with the flag clear. -/
theorem C1_two_pass_kat (ctx : EIP76_True_IOArea)
    (wc1 s1 a0 a1 a2 a3 t1 wc2 s2 b0 b1 b2 b3 t2 : Nat)
    (hstate : ctx.State = EIP76_State.KAT_START)
    (hflag : ctx.Flag = false)
    (hcap1 : wc1 ≤ MASK_31_BITS) (hready1 : EIP76_STATUS_IS_READY s1)
    (hfull1 : ctx.Index + 4 ≥ wc1)
    (hcap2 : wc2 ≤ MASK_31_BITS) (hready2 : EIP76_STATUS_IS_READY s2)
    (hfull2 : 4 ≥ wc2) :
    EIP76_PostProcessor_BCDF_Result_Read false false false ctx wc1 s1 a0 a1 a2 a3 t1 =
      some ⟨EIP76_Status.PROCESSING,
            { ctx with Index := 0, Flag := true, State := EIP76_State.KAT_START },
            some (s1 &&& EIP76_EVENTS_MASK),
            [(Reg.INTACK, CLEAR_READY_BIT), (Reg.CONTROL, EIP76_CONTROL_ENABLE_RESEED)],
            [(ctx.Index, a0), (ctx.Index + 1, a1), (ctx.Index + 2, a2), (ctx.Index + 3, a3)]⟩ ∧
    EIP76_PostProcessor_BCDF_Result_Read false false false
        { ctx with Index := 0, Flag := true, State := EIP76_State.KAT_START }
        wc2 s2 b0 b1 b2 b3 t2 =
      some ⟨EIP76_Status.NO_ERROR,
            { ctx with Index := 0, Flag := false, State := EIP76_State.SP80090_RESEED_START },
            some (s2 &&& EIP76_EVENTS_MASK),
            [(Reg.INTACK, CLEAR_READY_BIT),
             (Reg.TEST, t2 &&& (4294967295 ^^^ EIP76_TESTS_MASK)),
             (Reg.CONTROL, ctx.SavedControl)],
            [(0, b0), (1, b1), (2, b2), (3, b3)]⟩ := by
  have hcap1n : ¬ (wc1 > MASK_31_BITS) := by omega
  have hcap2n : ¬ (wc2 > MASK_31_BITS) := by omega
  have hfull2n : 0 + 4 ≥ wc2 := by omega
  constructor
  · simp [EIP76_PostProcessor_BCDF_Result_Read, EIP76_State_Set,
          hflag, hready1, hfull1, hcap1n]
  · simp [EIP76_PostProcessor_BCDF_Result_Read, EIP76_State_Set,
          hready2, hfull2n, hcap2n]

/-- Witness for C1 at a concrete context and concrete reads. -/
theorem C1_two_pass_kat_witness :
    EIP76_STATUS_IS_READY 1 ∧
    (EIP76_PostProcessor_BCDF_Result_Read false false false
        ⟨EIP76_State.KAT_START, 3, 0, false⟩ 4 1 10 11 12 13 0 =
      some ⟨EIP76_Status.PROCESSING,
            ⟨EIP76_State.KAT_START, 3, 0, true⟩, some 0,
            [(Reg.INTACK, CLEAR_READY_BIT), (Reg.CONTROL, EIP76_CONTROL_ENABLE_RESEED)],
            [(0, 10), (0 + 1, 11), (0 + 2, 12), (0 + 3, 13)]⟩ ∧
     EIP76_PostProcessor_BCDF_Result_Read false false false
        ⟨EIP76_State.KAT_START, 3, 0, true⟩ 4 1 20 21 22 23 255 =
      some ⟨EIP76_Status.NO_ERROR,
            ⟨EIP76_State.SP80090_RESEED_START, 3, 0, false⟩, some 0,
            [(Reg.INTACK, CLEAR_READY_BIT),
             (Reg.TEST, 255 &&& (4294967295 ^^^ EIP76_TESTS_MASK)),
             (Reg.CONTROL, 3)],
            [(0, 20), (1, 21), (2, 22), (3, 23)]⟩) :=
  ⟨by decide,
   C1_two_pass_kat ⟨EIP76_State.KAT_START, 3, 0, false⟩
     4 1 10 11 12 13 0 4 1 20 21 22 23 255
     rfl rfl (by decide) (by decide) (by decide) (by decide) (by decide) (by decide)⟩

/-- Counterexample to C2: `EIP76_PostProcessor_PS_AI_Write`, invoked in
`SP80090_RESEED_WRITING` with a freshly read status of 0 (neither test-ready
nor reseed-AI-ready asserted), returns success — not `ILLEGAL_IN_STATE` —
and performs five PS/AI register writes. -/
theorem C2_ps_ai_write_counterexample :
    (EIP76_PostProcessor_PS_AI_Write false false
        ⟨EIP76_State.SP80090_RESEED_WRITING, 0, 0, false⟩ (some [1, 2, 3, 4]) 4 0).ret =
      EIP76_Status.NO_ERROR ∧
    (EIP76_PostProcessor_PS_AI_Write false false
        ⟨EIP76_State.SP80090_RESEED_WRITING, 0, 0, false⟩ (some [1, 2, 3, 4]) 4 0).writes =
      [(Reg.PS_AI 0, 1), (Reg.PS_AI 1, 2), (Reg.PS_AI 2, 3), (Reg.PS_AI 3, 4),
       (Reg.PS_AI 11, 0)] ∧
    EIP76_Status.NO_ERROR ≠ EIP76_Status.ILLEGAL_IN_STATE := by decide

/-- C2 amended: when the freshly read status has neither the test-ready bit
nor the reseed-AI-ready bit, the internal library PS/AI write — and hence
`Reseed_Write` and `NIST_Write`, which delegate to it — returns
`ILLEGAL_IN_STATE` with no PS/AI register write and no context mutation; but
the public `EIP76_PostProcessor_PS_AI_Write` performs no readiness check: on
the same status it writes the PS/AI registers unconditionally and returns
success. -/
theorem C2_ps_ai_readiness_amended (ctx : EIP76_True_IOArea) (d : List Nat) (wc s : Nat)
    (hTR : (s &&& EIP76_STATUS_TEST_READY) = 0)
    (hRA : (s &&& EIP76_STATUS_RESEED_AI) = 0)
    (hwcmin : EIP76_MIN_PS_AI_WORD_COUNT ≤ wc)
    (hwcmax : wc ≤ EIP76_MAX_PS_AI_WORD_COUNT) :
    EIP76Lib_PS_AI_Write d wc s =
      (EIP76_Status.ILLEGAL_IN_STATE, s &&& EIP76_EVENTS_MASK, []) ∧
    EIP76_PostProcessor_Reseed_Write false false ctx (some d) wc s =
      ⟨EIP76_Status.ILLEGAL_IN_STATE, ctx, some (s &&& EIP76_EVENTS_MASK), [], []⟩ ∧
    EIP76_PostProcessor_NIST_Write false false ctx (some d) wc 1 s =
      ⟨EIP76_Status.ILLEGAL_IN_STATE, ctx, some (s &&& EIP76_EVENTS_MASK), [], []⟩ ∧
    (EIP76_PostProcessor_PS_AI_Write false false ctx (some d) wc s).ret =
      EIP76_Status.NO_ERROR ∧
    (EIP76_PostProcessor_PS_AI_Write false false ctx (some d) wc s).writes ≠ [] := by
  have hlib : EIP76Lib_PS_AI_Write d wc s =
      (EIP76_Status.ILLEGAL_IN_STATE, s &&& EIP76_EVENTS_MASK, []) := by
    simp [EIP76Lib_PS_AI_Write, hTR, hRA]
  have hrange : ¬ (wc < EIP76_MIN_PS_AI_WORD_COUNT ∨ wc > EIP76_MAX_PS_AI_WORD_COUNT) := by
    omega
  refine ⟨hlib, ?_, ?_, ?_, ?_⟩
  · simp [EIP76_PostProcessor_Reseed_Write, hlib, hrange]
  · simp [EIP76_PostProcessor_NIST_Write, hlib, hrange]
  · simp [EIP76_PostProcessor_PS_AI_Write, hrange, EIP76_State_Set]
  · simp only [EIP76_PostProcessor_PS_AI_Write, hrange, EIP76_State_Set,
               Bool.false_eq_true, if_false]
    have hwcmin' : 1 ≤ wc := hwcmin
    have hne : EIP76_Internal_PostProcessor_PS_AI_Write d wc ≠ [] := by
      simp only [EIP76_Internal_PostProcessor_PS_AI_Write, ne_eq,
                 List.map_eq_nil_iff, List.range_eq_nil]
      omega
    by_cases hlt : wc < EIP76_MAX_PS_AI_WORD_COUNT
    · simp [hlt]
    · simp [hlt, hne]

/-- Witness for C2's amended theorem at a concrete context and status 0. -/
theorem C2_ps_ai_readiness_amended_witness :
    ((0 : Nat) &&& EIP76_STATUS_TEST_READY) = 0 ∧
    ((0 : Nat) &&& EIP76_STATUS_RESEED_AI) = 0 ∧
    (EIP76Lib_PS_AI_Write [5, 6, 7] 3 0 =
      (EIP76_Status.ILLEGAL_IN_STATE, 0 &&& EIP76_EVENTS_MASK, []) ∧
     EIP76_PostProcessor_Reseed_Write false false
        ⟨EIP76_State.SP80090_RESEED_READY, 0, 0, false⟩ (some [5, 6, 7]) 3 0 =
      ⟨EIP76_Status.ILLEGAL_IN_STATE, ⟨EIP76_State.SP80090_RESEED_READY, 0, 0, false⟩,
       some (0 &&& EIP76_EVENTS_MASK), [], []⟩ ∧
     EIP76_PostProcessor_NIST_Write false false
        ⟨EIP76_State.SP80090_RESEED_READY, 0, 0, false⟩ (some [5, 6, 7]) 3 1 0 =
      ⟨EIP76_Status.ILLEGAL_IN_STATE, ⟨EIP76_State.SP80090_RESEED_READY, 0, 0, false⟩,
       some (0 &&& EIP76_EVENTS_MASK), [], []⟩ ∧
     (EIP76_PostProcessor_PS_AI_Write false false
        ⟨EIP76_State.SP80090_RESEED_READY, 0, 0, false⟩ (some [5, 6, 7]) 3 0).ret =
      EIP76_Status.NO_ERROR ∧
     (EIP76_PostProcessor_PS_AI_Write false false
        ⟨EIP76_State.SP80090_RESEED_READY, 0, 0, false⟩ (some [5, 6, 7]) 3 0).writes ≠ []) :=
  ⟨by decide, by decide,
   C2_ps_ai_readiness_amended ⟨EIP76_State.SP80090_RESEED_READY, 0, 0, false⟩
     [5, 6, 7] 3 0 (by decide) (by decide) (by decide) (by decide)⟩

/-- Counterexample to C3: `EIP76_PostProcessor_BCDF_Result_Read` never
validates its output data pointer — called with a null `Data_p` while the
status is not ready it returns `BUSY_RETRY_LATER`, not `INVALID_PARAMETER`;
and `EIP76_PostProcessor_BCDF_Noise_Write` with a null noise buffer
dereferences it (undefined behaviour) instead of failing validation. -/
theorem C3_validation_counterexample :
    (EIP76_PostProcessor_BCDF_Result_Read false false true
        ⟨EIP76_State.KAT_SP80090_BCDF_PROCESSING, 0, 0, false⟩ 8 0 0 0 0 0 0).map
      (fun r => r.ret) = some EIP76_Status.BUSY_RETRY_LATER ∧
    EIP76_PostProcessor_BCDF_Noise_Write false
        ⟨EIP76_State.KAT_SP80090_BCDF_RESEEDED, 0, 0, false⟩ none 4 = none ∧
    some EIP76_Status.BUSY_RETRY_LATER ≠ some EIP76_Status.INVALID_PARAMETER := by
  decide

/-- C3 amended: the core-path operations do validate their pointer and
word-count arguments, returning `INVALID_PARAMETER` before any register
write or context mutation (the `invalidParam` result carries the unchanged
context and an empty write trace); but the BC_DF operations omit some
checks: `BCDF_Result_Read` does not validate the output data pointer (on a
not-ready status with a null pointer it proceeds and reports busy),
`BCDF_Noise_Write` validates neither the noise buffer pointer nor the
sample count, and `BCDF_Generate_Start` does not validate the events
pointer. -/
theorem C3_validation_amended (ctx : EIP76_True_IOArea) (d : List Nat)
    (wc vt s c o0 o1 o2 o3 t bc : Nat) :
    EIP76_PostProcessor_PS_AI_Write false false ctx none wc s = invalidParam ctx ∧
    EIP76_PostProcessor_PS_AI_Write false false ctx (some d) 0 s = invalidParam ctx ∧
    EIP76_PostProcessor_PS_AI_Write false false ctx (some d) 13 s = invalidParam ctx ∧
    EIP76_PostProcessor_PS_AI_Write false true ctx (some d) 4 s = invalidParam ctx ∧
    EIP76_PostProcessor_Reseed_Write false false ctx none wc s = invalidParam ctx ∧
    EIP76_PostProcessor_Reseed_Write false false ctx (some d) 13 s = invalidParam ctx ∧
    EIP76_PostProcessor_Reseed_Write false true ctx (some d) 4 s = invalidParam ctx ∧
    EIP76_PostProcessor_NIST_Write false false ctx none wc vt s = invalidParam ctx ∧
    EIP76_PostProcessor_Input_Write false false ctx none s = invalidParam ctx ∧
    EIP76_PostProcessor_Key_Write false ctx none = invalidParam ctx ∧
    EIP76_PostProcessor_Result_Read false false true ctx s o0 o1 o2 o3 t =
      invalidParam ctx ∧
    EIP76_PostProcessor_IsBusy false true ctx s c = invalidParam ctx ∧
    EIP76_PostProcessor_IsReady false true ctx s = invalidParam ctx ∧
    EIP76_PostProcessor_BCDF_Status_Get false true ctx s = invalidParam ctx ∧
    EIP76_PostProcessor_BCDF_PS_AI_Write false false ctx (some d) 11 s =
      invalidParam ctx ∧
    EIP76_PostProcessor_BCDF_Result_Read true false false ctx wc s o0 o1 o2 o3 t =
      some (invalidParam ctx) ∧
    EIP76_PostProcessor_BCDF_Result_Read false false false ctx 2147483648 s
        o0 o1 o2 o3 t = some (invalidParam ctx) ∧
    EIP76_PostProcessor_BCDF_Generate_Start true false ctx wc c s =
      some (invalidParam ctx) ∧
    EIP76_PostProcessor_BCDF_Noise_Write true ctx (some d) wc =
      some (invalidParam ctx) ∧
    EIP76_PostProcessor_BlockCount_Get false true bc =
      (EIP76_Status.INVALID_PARAMETER, none) ∧
    (EIP76_PostProcessor_BCDF_Result_Read false false true ctx 8 0 o0 o1 o2 o3 t).map
      (fun r => r.ret) = some EIP76_Status.BUSY_RETRY_LATER :=
  ⟨rfl, rfl, rfl, rfl, rfl, rfl, rfl, rfl, rfl, rfl, rfl, rfl, rfl, rfl, rfl,
   rfl, rfl, rfl, rfl, rfl, rfl⟩

/-- Counterexample to C4: `EIP76_PostProcessor_BCDF_Result_Read` on a ready
status with more blocks still to read returns `BUSY_RETRY_LATER`, yet it has
advanced the context's block index from 0 to 4 and issued an
interrupt-acknowledge register write — not a side-effect-free retry. -/
theorem C4_busy_counterexample :
    (EIP76_PostProcessor_BCDF_Result_Read false false false
        ⟨EIP76_State.KAT_SP80090_BCDF_PROCESSING, 5, 0, false⟩ 8 1 100 101 102 103 0).map
      (fun r => (r.ret, r.ctx.Index, r.writes)) =
      some (EIP76_Status.BUSY_RETRY_LATER, 4, [(Reg.INTACK, CLEAR_READY_BIT)]) ∧
    (4 : Nat) ≠ 0 := by decide

/-- C4 amended: `IsBusy`, `IsReady` and `BCDF_Generate_Start` do leave the
context unchanged when returning `BUSY_RETRY_LATER`; but
`BCDF_Status_Get`'s busy return re-writes the state to
`KAT_SP80090_BCDF_NOISE`, and `BCDF_Result_Read`'s busy returns re-write the
state to `KAT_SP80090_BCDF_PROCESSING` and, when a block was successfully
read before the busy return, advance the block index by 4 and issue an
interrupt-acknowledge write. -/
theorem C4_busy_amended (ctx : EIP76_True_IOArea) (s c wc o0 o1 o2 o3 t : Nat) :
    ((c &&& EIP76_CONTROL_ENABLE_RESEED) ≠ 0 →
      EIP76_PostProcessor_IsBusy false false ctx s c =
        ⟨EIP76_Status.BUSY_RETRY_LATER, ctx, some (s &&& EIP76_EVENTS_MASK), [], []⟩) ∧
    ((s &&& EIP76_STATUS_RESEED_AI) = 0 →
      EIP76_PostProcessor_IsReady false false ctx s =
        ⟨EIP76_Status.BUSY_RETRY_LATER, ctx, some (s &&& EIP76_EVENTS_MASK), [], []⟩) ∧
    (((c >>> 20) &&& MASK_12_BITS) ≠ 0 →
      EIP76_PostProcessor_BCDF_Generate_Start false false ctx wc c s =
        some ⟨EIP76_Status.BUSY_RETRY_LATER, ctx, none, [], []⟩) ∧
    ((s &&& EIP76_STATUS_TEST_READY) = 0 →
      EIP76_PostProcessor_BCDF_Status_Get false false ctx s =
        ⟨EIP76_Status.BUSY_RETRY_LATER,
         { ctx with State := EIP76_State.KAT_SP80090_BCDF_NOISE },
         some (s &&& EIP76_EVENTS_MASK), [], []⟩) ∧
    (¬ EIP76_STATUS_IS_READY s → wc ≤ MASK_31_BITS →
      EIP76_PostProcessor_BCDF_Result_Read false false false ctx wc s o0 o1 o2 o3 t =
        some ⟨EIP76_Status.BUSY_RETRY_LATER,
              { ctx with State := EIP76_State.KAT_SP80090_BCDF_PROCESSING },
              some (s &&& EIP76_EVENTS_MASK), [], []⟩) ∧
    (EIP76_STATUS_IS_READY s → wc ≤ MASK_31_BITS → ctx.Index + 4 < wc →
      EIP76_PostProcessor_BCDF_Result_Read false false false ctx wc s o0 o1 o2 o3 t =
        some ⟨EIP76_Status.BUSY_RETRY_LATER,
              { ctx with Index := ctx.Index + 4,
                         State := EIP76_State.KAT_SP80090_BCDF_PROCESSING },
              some (s &&& EIP76_EVENTS_MASK), [(Reg.INTACK, CLEAR_READY_BIT)],
              [(ctx.Index, o0), (ctx.Index + 1, o1),
               (ctx.Index + 2, o2), (ctx.Index + 3, o3)]⟩) := by
  refine ⟨?_, ?_, ?_, ?_, ?_, ?_⟩
  · intro h
    simp [EIP76_PostProcessor_IsBusy, h]
  · intro h
    simp [EIP76_PostProcessor_IsReady, h]
  · intro h
    simp [EIP76_PostProcessor_BCDF_Generate_Start, h]
  · intro h
    simp [EIP76_PostProcessor_BCDF_Status_Get, h, EIP76_State_Set]
  · intro h hcap
    have hcapn : ¬ (wc > MASK_31_BITS) := by omega
    simp [EIP76_PostProcessor_BCDF_Result_Read, h, hcapn, EIP76_State_Set]
  · intro h hcap hpart
    have hcapn : ¬ (wc > MASK_31_BITS) := by omega
    have hfulln : ¬ (ctx.Index + 4 ≥ wc) := by omega
    simp [EIP76_PostProcessor_BCDF_Result_Read, h, hcapn, hfulln, EIP76_State_Set]

/-- Witness for C4's amended theorem: the partial-progress busy return of
`BCDF_Result_Read` at a concrete context. -/
theorem C4_busy_amended_witness :
    EIP76_STATUS_IS_READY 1 ∧ (8 : Nat) ≤ MASK_31_BITS ∧ (0 + 4 < 8) ∧
    EIP76_PostProcessor_BCDF_Result_Read false false false
        ⟨EIP76_State.KAT_SP80090_BCDF_PROCESSING, 5, 0, false⟩ 8 1 100 101 102 103 0 =
      some ⟨EIP76_Status.BUSY_RETRY_LATER,
            ⟨EIP76_State.KAT_SP80090_BCDF_PROCESSING, 5, 0 + 4, false⟩,
            some (1 &&& EIP76_EVENTS_MASK), [(Reg.INTACK, CLEAR_READY_BIT)],
            [(0, 100), (0 + 1, 101), (0 + 2, 102), (0 + 3, 103)]⟩ :=
  ⟨by decide, by decide, by decide,
   (C4_busy_amended ⟨EIP76_State.KAT_SP80090_BCDF_PROCESSING, 5, 0, false⟩
      1 0 8 100 101 102 103 0).2.2.2.2.2 (by decide) (by decide) (by decide)⟩

/-- The 12-bit block-count field (bits 20..31) of the control value written
by `BCDF_Generate_Start` equals the requested deficit, for any deficit within
the hardware maximum. -/
theorem bcdfGenWriteValue_field (dfct : Nat) (hd : dfct ≤ 4095) :
    ((EIP76_REQUEST_DATA ||| ((dfct &&& MASK_12_BITS) <<< 20)) >>> 20) &&& MASK_12_BITS =
      dfct := by
  simp only [EIP76_REQUEST_DATA, MASK_12_BITS]
  have h1 : dfct &&& 4095 = dfct := by
    have h := Nat.and_pow_two_sub_one_eq_mod dfct 12
    norm_num at h
    omega
  rw [h1, Nat.shiftLeft_eq, Nat.lor_comm]
  have h2 : dfct * 2 ^ 20 ||| 65536 = 2 ^ 20 * dfct + 65536 := by
    rw [Nat.mul_comm]
    exact (Nat.mul_add_lt_is_or (by norm_num) dfct).symm
  rw [h2, Nat.shiftRight_eq_div_pow]
  have h3 : (2 ^ 20 * dfct + 65536) / 2 ^ 20 = dfct := by
    rw [Nat.mul_add_div (by norm_num)]
    norm_num
  rw [h3]
  have h := Nat.and_pow_two_sub_one_eq_mod dfct 12
  norm_num at h
  omega

/-- C5: `BCDF_Generate_Start`.  A nonzero 12-bit outstanding-block field in
the control register yields `BUSY_RETRY_LATER` with no side effects.
Otherwise, with requested blocks `ceil(WordCount/4)` and available blocks
`(status bit 0) + (status bits 16..23)`: when the deficit exceeds the
hardware maximum the call fails `INVALID_PARAMETER` with no register write;
when the deficit is within the maximum the call issues exactly one control
write whose bits 20..31 equal the deficit and moves to
`KAT_SP80090_BCDF_PROCESSING`; when enough blocks are already available no
control write is issued. -/
theorem C5_bcdf_generate_start (ctx : EIP76_True_IOArea) (wc c s : Nat) :
    (((c >>> 20) &&& MASK_12_BITS) ≠ 0 →
      EIP76_PostProcessor_BCDF_Generate_Start false false ctx wc c s =
        some ⟨EIP76_Status.BUSY_RETRY_LATER, ctx, none, [], []⟩) ∧
    (((c >>> 20) &&& MASK_12_BITS) = 0 →
      (s &&& MASK_1_BIT) + ((s >>> 16) &&& MASK_8_BITS) < (wc + 3) / 4 →
      ((wc + 3) / 4 - ((s &&& MASK_1_BIT) + ((s >>> 16) &&& MASK_8_BITS)) >
          EIP76_REQUEST_DATA_MAX_BLK_COUNT →
        EIP76_PostProcessor_BCDF_Generate_Start false false ctx wc c s =
          some ⟨EIP76_Status.INVALID_PARAMETER, ctx,
                some (s &&& EIP76_EVENTS_MASK), [], []⟩) ∧
      ((wc + 3) / 4 - ((s &&& MASK_1_BIT) + ((s >>> 16) &&& MASK_8_BITS)) ≤
          EIP76_REQUEST_DATA_MAX_BLK_COUNT →
        EIP76_PostProcessor_BCDF_Generate_Start false false ctx wc c s =
          some ⟨EIP76_Status.NO_ERROR,
                { ctx with State := EIP76_State.KAT_SP80090_BCDF_PROCESSING },
                some (s &&& EIP76_EVENTS_MASK),
                [(Reg.CONTROL, EIP76_REQUEST_DATA |||
                   ((((wc + 3) / 4 -
                      ((s &&& MASK_1_BIT) + ((s >>> 16) &&& MASK_8_BITS))) &&&
                     MASK_12_BITS) <<< 20))], []⟩ ∧
        (((EIP76_REQUEST_DATA |||
            ((((wc + 3) / 4 -
               ((s &&& MASK_1_BIT) + ((s >>> 16) &&& MASK_8_BITS))) &&&
              MASK_12_BITS) <<< 20)) >>> 20) &&& MASK_12_BITS) =
          (wc + 3) / 4 - ((s &&& MASK_1_BIT) + ((s >>> 16) &&& MASK_8_BITS)))) ∧
    (((c >>> 20) &&& MASK_12_BITS) = 0 →
      ¬ ((s &&& MASK_1_BIT) + ((s >>> 16) &&& MASK_8_BITS) < (wc + 3) / 4) →
      EIP76_PostProcessor_BCDF_Generate_Start false false ctx wc c s =
        some ⟨EIP76_Status.NO_ERROR,
              { ctx with State := EIP76_State.KAT_SP80090_BCDF_PROCESSING },
              some (s &&& EIP76_EVENTS_MASK), [], []⟩) := by
  refine ⟨?_, ?_, ?_⟩
  · intro h
    simp [EIP76_PostProcessor_BCDF_Generate_Start, h]
  · intro h0 hshort
    constructor
    · intro hbig
      simp [EIP76_PostProcessor_BCDF_Generate_Start, h0, hshort, hbig]
    · intro hsmall
      have hbign : ¬ ((wc + 3) / 4 - ((s &&& MASK_1_BIT) + ((s >>> 16) &&& MASK_8_BITS)) >
          EIP76_REQUEST_DATA_MAX_BLK_COUNT) := by omega
      constructor
      · simp [EIP76_PostProcessor_BCDF_Generate_Start, h0, hshort, hbign,
              EIP76_State_Set]
      · exact bcdfGenWriteValue_field _ hsmall
  · intro h0 hav
    simp [EIP76_PostProcessor_BCDF_Generate_Start, h0, hav, EIP76_State_Set]

/-- Witness for C5: `WordCount = 16` with 0 blocks available issues one
control write requesting exactly `ceil(16/4) = 4` blocks and moves to
`KAT_SP80090_BCDF_PROCESSING`. -/
theorem C5_bcdf_generate_start_witness :
    (((0 : Nat) >>> 20) &&& MASK_12_BITS) = 0 ∧
    ((0 : Nat) &&& MASK_1_BIT) + (((0 : Nat) >>> 16) &&& MASK_8_BITS) < (16 + 3) / 4 ∧
    (EIP76_PostProcessor_BCDF_Generate_Start false false
        ⟨EIP76_State.KAT_SP80090_BCDF_READY, 0, 0, false⟩ 16 0 0 =
      some ⟨EIP76_Status.NO_ERROR,
            ⟨EIP76_State.KAT_SP80090_BCDF_PROCESSING, 0, 0, false⟩,
            some 0, [(Reg.CONTROL, EIP76_REQUEST_DATA ||| ((4 &&& MASK_12_BITS) <<< 20))],
            []⟩ ∧
     (((EIP76_REQUEST_DATA ||| ((4 &&& MASK_12_BITS) <<< 20)) >>> 20) &&&
        MASK_12_BITS) = 4) :=
  ⟨by decide, by decide,
   ((C5_bcdf_generate_start ⟨EIP76_State.KAT_SP80090_BCDF_READY, 0, 0, false⟩
       16 0 0).2.1 (by decide) (by decide)).2 (by decide)⟩

/-- C7: block-index invariant.  In `BCDF_Noise_Write` the index stays a
multiple of 2, advances by exactly 2 per call and wraps to 0 exactly when
the caller's total sample count is reached; in `BCDF_Result_Read` it stays a
multiple of 4, advances by exactly 4 per successful block read and resets to
0 exactly when it reaches the caller-supplied total word count — never
overshooting past the total; a not-ready status leaves it unchanged. -/
theorem C7_block_index_invariant (ctx : EIP76_True_IOArea) (nd : List Nat)
    (cnt wc s o0 o1 o2 o3 t : Nat) :
    (2 ∣ ctx.Index → 2 ∣ cnt → ctx.Index < cnt →
      (EIP76_PostProcessor_BCDF_Noise_Write false ctx (some nd) cnt).map
          (fun r => r.ctx.Index) =
        some (if ctx.Index + 2 = cnt then 0 else ctx.Index + 2) ∧
      2 ∣ (if ctx.Index + 2 = cnt then 0 else ctx.Index + 2) ∧
      (if ctx.Index + 2 = cnt then 0 else ctx.Index + 2) < cnt) ∧
    (4 ∣ ctx.Index → 4 ∣ wc → ctx.Index < wc → wc ≤ MASK_31_BITS →
      EIP76_STATUS_IS_READY s →
      (EIP76_PostProcessor_BCDF_Result_Read false false false
          ctx wc s o0 o1 o2 o3 t).map (fun r => r.ctx.Index) =
        some (if ctx.Index + 4 = wc then 0 else ctx.Index + 4) ∧
      4 ∣ (if ctx.Index + 4 = wc then 0 else ctx.Index + 4) ∧
      (if ctx.Index + 4 = wc then 0 else ctx.Index + 4) < wc) ∧
    (¬ EIP76_STATUS_IS_READY s → wc ≤ MASK_31_BITS →
      (EIP76_PostProcessor_BCDF_Result_Read false false false
          ctx wc s o0 o1 o2 o3 t).map (fun r => r.ctx.Index) = some ctx.Index) := by
  refine ⟨?_, ?_, ?_⟩
  · intro h2i h2c hic
    by_cases heq : ctx.Index + 2 = cnt
    · have hge : ctx.Index + 2 ≥ cnt := by omega
      refine ⟨?_, ?_, ?_⟩ <;>
        simp [EIP76_PostProcessor_BCDF_Noise_Write, EIP76_State_Set, hge, heq] <;>
        omega
    · have hge : ¬ (ctx.Index + 2 ≥ cnt) := by omega
      refine ⟨?_, ?_, ?_⟩ <;>
        simp [EIP76_PostProcessor_BCDF_Noise_Write, EIP76_State_Set, hge, heq] <;>
        omega
  · intro h4i h4w hiw hcap hready
    have hcapn : ¬ (wc > MASK_31_BITS) := by omega
    by_cases heq : ctx.Index + 4 = wc
    · have hge : ctx.Index + 4 ≥ wc := by omega
      cases hF : ctx.Flag <;>
        (refine ⟨?_, ?_, ?_⟩ <;>
          simp [EIP76_PostProcessor_BCDF_Result_Read, EIP76_State_Set, hready,
                hcapn, hge, heq, hF] <;>
          omega)
    · have hge : ¬ (ctx.Index + 4 ≥ wc) := by omega
      refine ⟨?_, ?_, ?_⟩ <;>
        simp [EIP76_PostProcessor_BCDF_Result_Read, EIP76_State_Set, hready,
              hcapn, hge, heq] <;>
        omega
  · intro hnr hcap
    have hcapn : ¬ (wc > MASK_31_BITS) := by omega
    simp [EIP76_PostProcessor_BCDF_Result_Read, EIP76_State_Set, hnr, hcapn]

/-- Witness for C7: the noise-write index advances 2 → 0 at a total of 4
(wrap), and the result-read index advances 0 → 4 at a total of 8. -/
theorem C7_block_index_invariant_witness :
    ((2 : Nat) ∣ 2) ∧ ((2 : Nat) ∣ 4) ∧ ((2 : Nat) < 4) ∧
    ((EIP76_PostProcessor_BCDF_Noise_Write false
        ⟨EIP76_State.KAT_SP80090_BCDF_RESEEDED, 0, 2, false⟩ (some [1, 2, 3, 4]) 4).map
        (fun r => r.ctx.Index) = some (if 2 + 2 = 4 then 0 else 2 + 2) ∧
     2 ∣ (if 2 + 2 = 4 then 0 else 2 + 2) ∧
     (if 2 + 2 = 4 then 0 else 2 + 2) < 4) :=
  ⟨by decide, by decide, by decide,
   (C7_block_index_invariant ⟨EIP76_State.KAT_SP80090_BCDF_RESEEDED, 0, 2, false⟩
      [1, 2, 3, 4] 4 8 1 0 0 0 0 0).1 (by decide) (by decide) (by decide)⟩

/-- The test-register write issued when leaving test mode clears all three
active-test bits. -/
theorem test_clear_clears_tests (t : Nat) :
    ((t &&& (4294967295 ^^^ EIP76_TESTS_MASK)) &&& EIP76_TESTS_MASK) = 0 := by
  have hT : EIP76_TESTS_MASK = 224 := by decide
  rw [hT]
  have hX : (4294967295 ^^^ 224 : Nat) = 4294967071 := by decide
  rw [hX, Nat.and_assoc]
  have h0 : (4294967071 &&& 224 : Nat) = 0 := by decide
  rw [h0, Nat.and_zero]

/-- C8: `Result_Read` returns `ILLEGAL_IN_STATE` with the context unchanged
and no output words read whenever the freshly read status lacks the
test-ready bit; when test-ready is set it reads exactly four output words,
clears the active-test bits, restores the saved control snapshot to the
control register and moves the context to `RANDOM_GENERATING`. -/
theorem C8_result_read_test_ready (ctx : EIP76_True_IOArea)
    (s o0 o1 o2 o3 t : Nat) :
    ((s &&& EIP76_STATUS_TEST_READY) = 0 →
      EIP76_PostProcessor_Result_Read false false false ctx s o0 o1 o2 o3 t =
        ⟨EIP76_Status.ILLEGAL_IN_STATE, ctx, some (s &&& EIP76_EVENTS_MASK), [], []⟩) ∧
    ((s &&& EIP76_STATUS_TEST_READY) ≠ 0 →
      EIP76_PostProcessor_Result_Read false false false ctx s o0 o1 o2 o3 t =
        ⟨EIP76_Status.NO_ERROR, { ctx with State := EIP76_State.RANDOM_GENERATING },
         some (s &&& EIP76_EVENTS_MASK),
         [(Reg.TEST, t &&& (4294967295 ^^^ EIP76_TESTS_MASK)),
          (Reg.CONTROL, ctx.SavedControl)],
         [(0, o0), (1, o1), (2, o2), (3, o3)]⟩ ∧
      ((t &&& (4294967295 ^^^ EIP76_TESTS_MASK)) &&& EIP76_TESTS_MASK) = 0) := by
  constructor
  · intro h
    simp [EIP76_PostProcessor_Result_Read, h]
  · intro h
    refine ⟨?_, test_clear_clears_tests t⟩
    simp [EIP76_PostProcessor_Result_Read, h, EIP76_State_Set]

/-- Witness for C8: an all-zero status (context in `RANDOM_GENERATING`, no
test started) yields `ILLEGAL_IN_STATE`; a test-ready status yields the
four-word read, test-bit clear and control restore. -/
theorem C8_result_read_test_ready_witness :
    ((0 : Nat) &&& EIP76_STATUS_TEST_READY) = 0 ∧
    (EIP76_PostProcessor_Result_Read false false false
        ⟨EIP76_State.RANDOM_GENERATING, 7, 0, false⟩ 0 1 2 3 4 0 =
      ⟨EIP76_Status.ILLEGAL_IN_STATE, ⟨EIP76_State.RANDOM_GENERATING, 7, 0, false⟩,
       some (0 &&& EIP76_EVENTS_MASK), [], []⟩) :=
  ⟨by decide,
   (C8_result_read_test_ready ⟨EIP76_State.RANDOM_GENERATING, 7, 0, false⟩
      0 1 2 3 4 0).1 (by decide)⟩

/-- C9: every PS/AI write that succeeds with a word count strictly below the
hardware maximum writes the supplied words to consecutive slots starting at
slot 0 and then explicitly writes zero to the highest-indexed PS/AI slot
(slot 11) — both in the internal library path (used by `Reseed_Write` and
`NIST_Write`) and in the public `PS_AI_Write`. -/
theorem C9_ps_ai_zero_fill (ctx : EIP76_True_IOArea) (d : List Nat) (wc s : Nat)
    (hmin : EIP76_MIN_PS_AI_WORD_COUNT ≤ wc)
    (hlt : wc < EIP76_MAX_PS_AI_WORD_COUNT)
    (hrdy : ¬ ((s &&& EIP76_STATUS_TEST_READY) = 0 ∧
               (s &&& EIP76_STATUS_RESEED_AI) = 0)) :
    EIP76Lib_PS_AI_Write d wc s =
      (EIP76_Status.NO_ERROR, s &&& EIP76_EVENTS_MASK,
       EIP76_Internal_PostProcessor_PS_AI_Write d wc ++ [(Reg.PS_AI 11, 0)]) ∧
    (EIP76_PostProcessor_PS_AI_Write false false ctx (some d) wc s).writes =
      EIP76_Internal_PostProcessor_PS_AI_Write d wc ++ [(Reg.PS_AI 11, 0)] ∧
    (EIP76_PostProcessor_PS_AI_Write false false ctx (some d) wc s).ret =
      EIP76_Status.NO_ERROR ∧
    EIP76_Internal_PostProcessor_PS_AI_Write d wc =
      (List.range wc).map (fun i => (Reg.PS_AI i, d.getD i 0)) := by
  have hrange : ¬ (wc < EIP76_MIN_PS_AI_WORD_COUNT ∨
                   wc > EIP76_MAX_PS_AI_WORD_COUNT) := by omega
  refine ⟨?_, ?_, ?_, rfl⟩
  · simp [EIP76Lib_PS_AI_Write, hrdy, hlt]
  · simp [EIP76_PostProcessor_PS_AI_Write, hrange, hlt, EIP76_State_Set]
  · simp [EIP76_PostProcessor_PS_AI_Write, hrange, hlt, EIP76_State_Set]

/-- Witness for C9: four words with a test-ready status zero-fill slot 11
after slots 0..3. -/
theorem C9_ps_ai_zero_fill_witness :
    EIP76_MIN_PS_AI_WORD_COUNT ≤ 4 ∧ 4 < EIP76_MAX_PS_AI_WORD_COUNT ∧
    ¬ (((256 : Nat) &&& EIP76_STATUS_TEST_READY) = 0 ∧
       ((256 : Nat) &&& EIP76_STATUS_RESEED_AI) = 0) ∧
    (EIP76Lib_PS_AI_Write [1, 2, 3, 4] 4 256 =
      (EIP76_Status.NO_ERROR, 256 &&& EIP76_EVENTS_MASK,
       EIP76_Internal_PostProcessor_PS_AI_Write [1, 2, 3, 4] 4 ++ [(Reg.PS_AI 11, 0)]) ∧
     (EIP76_PostProcessor_PS_AI_Write false false
        ⟨EIP76_State.SP80090_RESEED_READY, 0, 0, false⟩ (some [1, 2, 3, 4]) 4 256).writes =
      EIP76_Internal_PostProcessor_PS_AI_Write [1, 2, 3, 4] 4 ++ [(Reg.PS_AI 11, 0)] ∧
     (EIP76_PostProcessor_PS_AI_Write false false
        ⟨EIP76_State.SP80090_RESEED_READY, 0, 0, false⟩ (some [1, 2, 3, 4]) 4 256).ret =
      EIP76_Status.NO_ERROR ∧
     EIP76_Internal_PostProcessor_PS_AI_Write [1, 2, 3, 4] 4 =
      (List.range 4).map (fun i => (Reg.PS_AI i, [1, 2, 3, 4].getD i 0))) :=
  ⟨by decide, by decide, by decide,
   C9_ps_ai_zero_fill ⟨EIP76_State.SP80090_RESEED_READY, 0, 0, false⟩
     [1, 2, 3, 4] 4 256 (by decide) (by decide) (by decide)⟩

/-- Counterexample to C10: a single `BCDF_Result_Read` call completing the
first KAT pass changes two context fields at once — the state (from
`KAT_SP80090_BCDF_PROCESSING` to `KAT_START`) and the two-pass flag (from
`false` to `true`). -/
theorem C10_single_mutation_counterexample :
    (EIP76_PostProcessor_BCDF_Result_Read false false false
        ⟨EIP76_State.KAT_SP80090_BCDF_PROCESSING, 9, 0, false⟩ 4 1 1 2 3 4 0).map
      (fun r => (r.ctx.State, r.ctx.Flag)) =
      some (EIP76_State.KAT_START, true) ∧
    EIP76_State.KAT_START ≠ EIP76_State.KAT_SP80090_BCDF_PROCESSING ∧
    true ≠ false := by decide

/-- C10 amended: a single call may change state, block index and the
two-pass flag together, but no operation ever mutates the saved control
snapshot: for every operation and every input, the context's
`SavedControl` field is unchanged between entry and return. -/
theorem C10_saved_control_never_mutated (ctx : EIP76_True_IOArea)
    (d nd k inp : List Nat) (wc vt cnt s c o0 o1 o2 o3 t : Nat) :
    (EIP76_PostProcessor_IsBusy false false ctx s c).ctx.SavedControl =
      ctx.SavedControl ∧
    (EIP76_PostProcessor_Reseed_Start false false ctx s).ctx.SavedControl =
      ctx.SavedControl ∧
    (EIP76_PostProcessor_Reseed_Write false false ctx (some d) wc s).ctx.SavedControl =
      ctx.SavedControl ∧
    (EIP76_PostProcessor_NIST_Write false false ctx (some d) wc vt s).ctx.SavedControl =
      ctx.SavedControl ∧
    (EIP76_PostProcessor_PS_AI_Write false false ctx (some d) wc s).ctx.SavedControl =
      ctx.SavedControl ∧
    (EIP76_PostProcessor_Key_Write false ctx (some k)).ctx.SavedControl =
      ctx.SavedControl ∧
    (EIP76_PostProcessor_Input_Write false false ctx (some inp) s).ctx.SavedControl =
      ctx.SavedControl ∧
    (EIP76_PostProcessor_Result_Read false false false ctx s o0 o1 o2 o3 t).ctx.SavedControl =
      ctx.SavedControl ∧
    (EIP76_PostProcessor_IsReady false false ctx s).ctx.SavedControl =
      ctx.SavedControl ∧
    (EIP76_PostProcessor_BCDF_PS_AI_Write false false ctx (some d) wc s).ctx.SavedControl =
      ctx.SavedControl ∧
    (EIP76_PostProcessor_BCDF_Noise_Write false ctx (some nd) cnt).map
      (fun r => r.ctx.SavedControl) = some ctx.SavedControl ∧
    (EIP76_PostProcessor_BCDF_Status_Get false false ctx s).ctx.SavedControl =
      ctx.SavedControl ∧
    (EIP76_PostProcessor_BCDF_Generate_Start false false ctx wc c s).map
      (fun r => r.ctx.SavedControl) = some ctx.SavedControl ∧
    (EIP76_PostProcessor_BCDF_Result_Read false false false ctx wc s o0 o1 o2 o3 t).map
      (fun r => r.ctx.SavedControl) = some ctx.SavedControl := by
  refine ⟨?_, rfl, ?_, ?_, ?_, rfl, rfl, ?_, ?_, ?_, ?_, ?_, ?_, ?_⟩
  · dsimp only [EIP76_PostProcessor_IsBusy, EIP76_State_Set]
    repeat' split
    all_goals rfl
  · dsimp only [EIP76_PostProcessor_Reseed_Write, EIP76Lib_PS_AI_Write,
                EIP76_State_Set]
    repeat' split
    all_goals rfl
  · dsimp only [EIP76_PostProcessor_NIST_Write, EIP76Lib_PS_AI_Write,
                EIP76_State_Set]
    repeat' split
    all_goals rfl
  · dsimp only [EIP76_PostProcessor_PS_AI_Write, EIP76_State_Set]
    repeat' split
    all_goals rfl
  · dsimp only [EIP76_PostProcessor_Result_Read, EIP76_State_Set]
    repeat' split
    all_goals rfl
  · dsimp only [EIP76_PostProcessor_IsReady, EIP76_State_Set]
    repeat' split
    all_goals rfl
  · dsimp only [EIP76_PostProcessor_BCDF_PS_AI_Write, EIP76_State_Set]
    repeat' split
    all_goals rfl
  · dsimp only [EIP76_PostProcessor_BCDF_Noise_Write, EIP76_State_Set]
    repeat' split
    all_goals rfl
  · dsimp only [EIP76_PostProcessor_BCDF_Status_Get, EIP76_State_Set]
    repeat' split
    all_goals rfl
  · dsimp only [EIP76_PostProcessor_BCDF_Generate_Start, EIP76_State_Set]
    repeat' split
    all_goals rfl
  · dsimp only [EIP76_PostProcessor_BCDF_Result_Read, EIP76_State_Set]
    repeat' split
    all_goals rfl
